import Mathlib

/-!
# Verification of `src/outputarea/widget.ts` (JupyterLab output area widget)

A shallow embedding of the output-area widget module.  DOM widgets are
modelled by their CSS class lists plus an identity (`uid`); the phosphor
`PanelLayout` child sequence is a `List Child`; the external observable
output-list model is visible only through its change events
(`ChangedArgs`) and through the trace of calls the widget makes back into
it (`ModelOp`).  Opaque payloads (output models, kernel messages, widget
identities) are represented by `Nat` tags.
-/

set_option autoImplicit false

namespace OutputAreaWidget

/-- `DRAG_THRESHOLD`: threshold in pixels to start a drag event. -/
def DRAG_THRESHOLD : Nat := 5

/-- `OUTPUT_AREA_CLASS`. -/
def OUTPUT_AREA_CLASS : String := "jp-OutputArea"

/-- `MIRRORED_OUTPUT_AREA_CLASS`. -/
def MIRRORED_OUTPUT_AREA_CLASS : String := "jp-MirroredOutputArea"

/-- `CHILD_CLASS`. -/
def CHILD_CLASS : String := "jp-OutputArea-child"

/-- `GUTTER_CLASS`. -/
def GUTTER_CLASS : String := "jp-Output-gutter"

/-- `OUTPUT_CLASS`. -/
def OUTPUT_CLASS : String := "jp-OutputArea-output"

/-- `STDIN_CLASS`. -/
def STDIN_CLASS : String := "jp-OutputArea-stdin"

/-- `EXECUTE_CLASS`. -/
def EXECUTE_CLASS : String := "jp-Output-executeResult"

/-- `DISPLAY_CLASS`. -/
def DISPLAY_CLASS : String := "jp-Output-displayData"

/-- `STDOUT_CLASS`. -/
def STDOUT_CLASS : String := "jp-Output-stdout"

/-- `STDERR_CLASS`. -/
def STDERR_CLASS : String := "jp-Output-stderr"

/-- `ERROR_CLASS`. -/
def ERROR_CLASS : String := "jp-Output-error"

/-- `STDIN_RENDERED_CLASS`. -/
def STDIN_RENDERED_CLASS : String := "jp-Stdin-stdinRendered"

/-- `FIXED_HEIGHT_CLASS`. -/
def FIXED_HEIGHT_CLASS : String := "jp-mod-fixedHeight"

/-- `COLLAPSED_CLASS`. -/
def COLLAPSED_CLASS : String := "jp-mod-collapsed"

/-- `Widget.addClass` (phosphor): add a CSS class if it is not already
present (the DOM `classList` holds no duplicates). -/
def addClassL (classes : List String) (c : String) : List String :=
  if c ∈ classes then classes else classes ++ [c]

/-- `Widget.removeClass` (phosphor): remove a CSS class. -/
def removeClassL (classes : List String) (c : String) : List String :=
  classes.filter (fun x => x ≠ c)

/-- `Widget.toggleClass(name, force)` (phosphor): force the presence of a
CSS class to the given boolean. -/
def toggleClassL (classes : List String) (c : String) (force : Bool) : List String :=
  if force then addClassL classes c else removeClassL classes c

/-- A child `Panel` of the output area layout: its CSS classes and an
opaque identity.  `_insertOutput` creates children with classes
`[CHILD_CLASS, OUTPUT_CLASS]`; `_onInputRequest` creates children with
classes `[CHILD_CLASS, STDIN_CLASS]`. -/
structure Child where
  classes : List String
  uid : Nat
deriving DecidableEq, Repr

/-- `widget.hasClass(STDIN_CLASS)` on a child panel. -/
def Child.hasStdinClass (c : Child) : Bool :=
  c.classes.contains STDIN_CLASS

/-- The panel built by `_insertOutput` for a freshly rendered output
(`panel.addClass(CHILD_CLASS); panel.addClass(OUTPUT_CLASS)`). -/
def mkOutputChild (uid : Nat) : Child :=
  { classes := [CHILD_CLASS, OUTPUT_CLASS], uid := uid }

/-- The panel built by `_onInputRequest` for a stdin prompt
(`panel.addClass(CHILD_CLASS); panel.addClass(STDIN_CLASS)`). -/
def mkStdinChild (uid : Nat) : Child :=
  { classes := [CHILD_CLASS, STDIN_CLASS], uid := uid }

/-- `PanelLayout.insertWidget(index, widget)` (phosphor): the index is
clamped to the current child count, then the widget is inserted there. -/
def insertWidgetL (cs : List Child) (index : Nat) (c : Child) : List Child :=
  cs.insertIdx (min index cs.length) c

/-- The skip loop of `OutputArea._setOutput`:

    for (let i = 0; i < index; i++) {
      if (widgets.at(i).hasClass(STDIN_CLASS)) {
        index++;
      }
    }

`i` walks the child list from position 0 while `i < index`; every child
bearing the stdin class that `i` passes bumps `index` by one.  The list
argument holds the children from position `i` onward.  (When the loop
would read past the end of the child list the JavaScript code faults on
`undefined`; the model returns the current `index` there, a case the
theorems exclude by hypothesis.) -/
def resolveIndex (i index : Nat) : List Child → Nat
  | [] => index
  | c :: rest =>
    if i < index then
      resolveIndex (i + 1) (if c.hasStdinClass then index + 1 else index) rest
    else index

/-- `OutputArea._setOutput(index, model)`: resolve the layout position by
the skip loop, dispose the child there, and insert the freshly rendered
output at that position. -/
def setOutputChildren (cs : List Child) (index : Nat) (uid : Nat) : List Child :=
  insertWidgetL (cs.eraseIdx (resolveIndex 0 index cs)) (resolveIndex 0 index cs)
    (mkOutputChild uid)

/-- The loop body of `OutputArea.clear`:

    for (let i = 0; i < this.widgets.length; i++) {
      this.widgets.at(0).dispose();
    }

Disposing the child at position 0 synchronously removes it from the
layout, so `this.widgets.length` shrinks by one on every iteration while
`i` grows by one. -/
def clearLoop (i : Nat) : List Child → List Child
  | [] => []
  | c :: rest => if i < (c :: rest).length then clearLoop (i + 1) rest else c :: rest

/-- `OutputArea.clear`: bail when there are no children, otherwise run the
disposal loop.  (The `minHeight` styling and its timeout are DOM-only and
not part of the child-list state.) -/
def clearChildren (cs : List Child) : List Child :=
  if cs.length = 0 then cs else clearLoop 0 cs

/-- A `'changed'` event from the observable output-list model
(`ObservableVector.IChangedArgs`), restricted to the fields
`_onModelChanged` reads: the event type, `newIndex`, and the single new
output model in `newValues[0]` (an opaque tag). -/
inductive ChangedArgs where
  | add (newIndex : Nat) (uid : Nat)
  | remove
  | set (newIndex : Nat) (uid : Nat)
  | other
deriving DecidableEq, Repr

/-- `OutputArea._onModelChanged`, as the effect on the child list:
`'add'` inserts the rendered output at `this.widgets.length` (the event
index is not consulted), `'remove'` runs `this.clear()`, `'set'` runs
`this._setOutput(args.newIndex, args.newValues[0])`, and any other event
type does nothing. -/
def onModelChanged (cs : List Child) : ChangedArgs → List Child
  | .add _ uid => insertWidgetL cs cs.length (mkOutputChild uid)
  | .remove => clearChildren cs
  | .set newIndex uid => setOutputChildren cs newIndex uid
  | .other => cs

/-- An output value as manipulated by `_onIOPub`: the kernel message
content (opaque tag) together with the `output_type` field the handler
writes onto it before handing it to the model. -/
structure OutputJSON where
  output_type : String
  data : Nat
deriving DecidableEq, Repr

/-- A call made into the external output-list model: `model.add(output)`
or `model.clear(wait)`. -/
inductive ModelOp where
  | add (o : OutputJSON)
  | clear (wait : Bool)
deriving DecidableEq, Repr

/-- The fields of a kernel IOPub message that `_onIOPub` reads:
`msg.header.msg_type`, the (opaque) message content, and the `wait` flag
of a `clear_output` message. -/
structure IOPubMessage where
  msg_type : String
  content_data : Nat
  wait : Bool
deriving DecidableEq, Repr

/-- `OutputArea._onIOPub`, as the list of calls it makes into the model:

    switch (msgType) {
    case 'execute_result': case 'display_data': case 'stream': case 'error':
      output.output_type = msgType; model.add(output); break;
    case 'clear_output':
      model.clear(wait); break;
    default: break;
    } -/
def onIOPub (msg : IOPubMessage) : List ModelOp :=
  match msg.msg_type with
  | "execute_result" | "display_data" | "stream" | "error" =>
    [ModelOp.add { output_type := msg.msg_type, data := msg.content_data }]
  | "clear_output" => [ModelOp.clear msg.wait]
  | _ => []

/-- The outcome of the synchronous prefix of `OutputArea.execute(code,
kernel)` together with the reply handler it installs on the future. -/
structure ExecuteSetup where
  modelCleared : Bool
  children : List Child
  resolveOnReply : Nat → Nat

/-- `OutputArea.execute(code, kernel)`, restricted to what it does before
and at the execute reply.  It calls `this.model.clear()`; when the model
held outputs this synchronously emits a `'remove'` change event, which
`_onModelChanged` answers with `this.clear()`.  Then `execute` calls
`this.clear()` itself ("Make sure there were no input widgets.").
The future's `onReply` handler resolves the returned promise with the
very reply message it receives (messages are opaque `Nat` tags here). -/
def executeSetup (modelNonempty : Bool) (cs : List Child) : ExecuteSetup :=
  { modelCleared := true
    children := clearChildren (if modelNonempty then clearChildren cs else cs)
    resolveOnReply := fun msg => msg }

/-- A widget produced by `rendermime.render`, reduced to its CSS class
list. -/
structure RenderedWidget where
  classes : List String
deriving DecidableEq, Repr

/-- `Widget.addClass` on a rendered widget. -/
def RenderedWidget.addClass (w : RenderedWidget) (c : String) : RenderedWidget :=
  { classes := addClassL w.classes c }

/-- The fields of an output model that `ContentFactory.createOutput`
reads: `output_type`, the stream `name`, and `execution_count`. -/
structure OutputModelView where
  output_type : String
  name : String
  execution_count : Option Int
deriving DecidableEq, Repr

/-- The outcome of `ContentFactory.createOutput`: the returned widget,
the gutter text after the call, and whether a console warning was
emitted. -/
structure CreateOutputResult where
  widget : RenderedWidget
  gutterText : String
  warned : Bool
deriving DecidableEq, Repr

/-- `OutputArea.ContentFactory.createOutput(options)`.  The first
argument is the result of `options.rendermime.render(options.model)`
(`none` when no renderer was found); the `gutterText` argument is the
gutter's text before the call. -/
def createOutput (rendered : Option RenderedWidget) (model : OutputModelView)
    (gutterText : String) : CreateOutputResult :=
  match rendered with
  | none => { widget := { classes := [] }, gutterText := gutterText, warned := true }
  | some w =>
    match model.output_type with
    | "execute_result" =>
      { widget := w.addClass EXECUTE_CLASS
        gutterText := "Out[" ++ (match model.execution_count with
          | none => " "
          | some count => toString count) ++ "]:"
        warned := false }
    | "display_data" =>
      { widget := w.addClass DISPLAY_CLASS, gutterText := gutterText, warned := false }
    | "stream" =>
      { widget := if model.name = "stdout" then w.addClass STDOUT_CLASS
          else w.addClass STDERR_CLASS
        gutterText := gutterText, warned := false }
    | "error" =>
      { widget := w.addClass ERROR_CLASS, gutterText := gutterText, warned := false }
    | _ => { widget := w, gutterText := gutterText, warned := false }

/-- The press position remembered by `Gutter._evtMousedown`. -/
structure DragData where
  pressX : Int
  pressY : Int
deriving DecidableEq, Repr

/-- The drag-related state of a `Gutter` widget: `_dragData`, whether
`_drag` is non-null, and how many `Drag` objects have been constructed
(to observe that no second drag is started). -/
structure GutterState where
  dragData : Option DragData
  dragActive : Bool
  dragsStarted : Nat
deriving DecidableEq, Repr

/-- `Gutter._evtMousedown`: a left (button 0) press records the press
position. -/
def Gutter.evtMousedown (s : GutterState) (button : Nat) (clientX clientY : Int) : GutterState :=
  if button = 0 then { s with dragData := some { pressX := clientX, pressY := clientY } }
  else s

/-- `Gutter._startDrag`: construct the `Drag` object and start it. -/
def Gutter.startDrag (s : GutterState) : GutterState :=
  { s with dragActive := true, dragsStarted := s.dragsStarted + 1 }

/-- `Gutter._evtMousemove`: bail when a drag is active; otherwise compare
`Math.abs` of the pointer offsets from the press position against
`DRAG_THRESHOLD` and start a drag when either reaches it.  (A mousemove
with no recorded press dereferences `null` in the JavaScript and is
excluded by hypothesis in the theorems.) -/
def Gutter.evtMousemove (s : GutterState) (clientX clientY : Int) : GutterState :=
  if s.dragActive then s
  else
    match s.dragData with
    | some data =>
      if (clientX - data.pressX).natAbs < DRAG_THRESHOLD ∧
          (clientY - data.pressY).natAbs < DRAG_THRESHOLD then s
      else Gutter.startDrag s
    | none => s

/-- `Array(n + 1).join(s)` for a one-character string `s`: the character
repeated `n` times. -/
def repeatChar (c : Char) (n : Nat) : String :=
  String.mk (List.replicate n c)

/-- The outcome of `Stdin.handleEvent` on a keydown: the input reply sent
to the kernel, the text of the rendered span put in place of the input
element, and whether the input element was replaced. -/
structure StdinResult where
  sentReply : Option String
  renderedText : Option String
  inputReplaced : Bool
deriving DecidableEq, Repr

/-- `OutputArea.Stdin.handleEvent` on a `'keydown'` event, given the
current value of the input element, whether the input is a password
(`input.type === 'password'`), and the key code.  On Enter (key code 13)
it sends `input.value` as the input reply and replaces the input element
with a span whose text is the value, masked with one `'·'` per character
when the input is a password. -/
def Stdin.handleKeydown (password : Bool) (value : String) (keyCode : Nat) : StdinResult :=
  if keyCode = 13 then
    { sentReply := some value
      renderedText := some (if password then repeatChar '·' value.length else value)
      inputReplaced := true }
  else
    { sentReply := none, renderedText := none, inputReplaced := false }

/-- The state of an `OutputArea` widget: the identities of the shared
`model`, `rendermime` and `contentFactory` (opaque tags), its CSS
classes, layout children, the `_collapsed` and `_fixedHeight` flags,
whether an update has been scheduled by `this.update()`, and the title
fields. -/
structure OutputAreaW where
  modelId : Nat
  rendermimeId : Nat
  contentFactoryId : Nat
  classes : List String
  children : List Child
  collapsed : Bool
  fixedHeight : Bool
  updateRequested : Bool
  titleLabel : String
  titleClosable : Bool
deriving DecidableEq, Repr

/-- The `OutputArea` constructor: store the options, add
`OUTPUT_AREA_CLASS`, start with an empty `PanelLayout`, and connect
`_onModelChanged` to the model. -/
def OutputAreaW.construct (modelId rendermimeId contentFactoryId : Nat) : OutputAreaW :=
  { modelId := modelId, rendermimeId := rendermimeId, contentFactoryId := contentFactoryId
    classes := addClassL [] OUTPUT_AREA_CLASS
    children := []
    collapsed := false, fixedHeight := false, updateRequested := false
    titleLabel := "", titleClosable := false }

/-- `OutputArea.mirror()`: build a new `OutputArea` over the same model,
rendermime and content factory, give it the mirrored-output title and
CSS class, and return it.  The method only reads `this`, so the pair
holds the (unchanged) receiver next to the new widget. -/
def OutputAreaW.mirror (s : OutputAreaW) : OutputAreaW × OutputAreaW :=
  let w0 := OutputAreaW.construct s.modelId s.rendermimeId s.contentFactoryId
  let w1 := { w0 with titleLabel := "Mirrored Output", titleClosable := true }
  let w2 := { w1 with classes := addClassL w1.classes MIRRORED_OUTPUT_AREA_CLASS }
  (s, w2)

/-- The `collapsed` setter: bail when the value is unchanged, otherwise
store it and schedule an update. -/
def OutputAreaW.setCollapsed (s : OutputAreaW) (value : Bool) : OutputAreaW :=
  if s.collapsed = value then s
  else { s with collapsed := value, updateRequested := true }

/-- The `fixedHeight` setter: bail when the value is unchanged, otherwise
store it and schedule an update. -/
def OutputAreaW.setFixedHeight (s : OutputAreaW) (value : Bool) : OutputAreaW :=
  if s.fixedHeight = value then s
  else { s with fixedHeight := value, updateRequested := true }

/-- `OutputArea.onUpdateRequest`: force `COLLAPSED_CLASS` and
`FIXED_HEIGHT_CLASS` to match the current flags. -/
def OutputAreaW.onUpdateRequest (s : OutputAreaW) : OutputAreaW :=
  let cls := toggleClassL s.classes COLLAPSED_CLASS s.collapsed
  let cls := toggleClassL cls FIXED_HEIGHT_CLASS s.fixedHeight
  { s with classes := cls }

/-! ## Lemmas about the `_setOutput` skip loop -/

/-- The skip loop never decreases `index`. -/
theorem resolveIndex_ge (cs : List Child) : ∀ i index : Nat, index ≤ resolveIndex i index cs := by
  induction cs with
  | nil => intro i index; exact Nat.le_refl _
  | cons c rest ih =>
    intro i index
    unfold resolveIndex
    split
    · refine Nat.le_trans ?_ (ih (i + 1) (if c.hasStdinClass then index + 1 else index))
      split <;> omega
    · exact Nat.le_refl _

/-- Loop invariant of the skip loop: when the loop stops inside the child
list, the children it scanned (positions `i` up to the result) contain
exactly `index - i` children without the stdin class. -/
theorem resolveIndex_countP (cs : List Child) :
    ∀ i index : Nat, i ≤ index → resolveIndex i index cs - i ≤ cs.length →
      (cs.take (resolveIndex i index cs - i)).countP (fun d => !d.hasStdinClass) = index - i := by
  induction cs with
  | nil =>
    intro i index hle hlen
    have hr : resolveIndex i index [] = index := rfl
    rw [hr] at hlen ⊢
    simp only [List.length_nil] at hlen
    simp only [List.take_nil, List.countP_nil]
    omega
  | cons c rest ih =>
    intro i index hle hlen
    by_cases h : i < index
    · by_cases hcst : c.hasStdinClass
      · have hr : resolveIndex i index (c :: rest) = resolveIndex (i + 1) (index + 1) rest := by
          simp [resolveIndex, h, hcst]
        rw [hr] at hlen ⊢
        have hge : index + 1 ≤ resolveIndex (i + 1) (index + 1) rest :=
          resolveIndex_ge rest (i + 1) (index + 1)
        simp only [List.length_cons] at hlen
        have hstep : resolveIndex (i + 1) (index + 1) rest - i =
            (resolveIndex (i + 1) (index + 1) rest - (i + 1)) + 1 := by omega
        rw [hstep, List.take_succ_cons, List.countP_cons]
        have hIH := ih (i + 1) (index + 1) (by omega) (by omega)
        simp [hcst, hIH]
        try omega
      · have hr : resolveIndex i index (c :: rest) = resolveIndex (i + 1) index rest := by
          simp [resolveIndex, h, hcst]
        rw [hr] at hlen ⊢
        have hge : index ≤ resolveIndex (i + 1) index rest :=
          resolveIndex_ge rest (i + 1) index
        simp only [List.length_cons] at hlen
        have hstep : resolveIndex (i + 1) index rest - i =
            (resolveIndex (i + 1) index rest - (i + 1)) + 1 := by omega
        rw [hstep, List.take_succ_cons, List.countP_cons]
        have hIH := ih (i + 1) index (by omega) (by omega)
        simp only [Bool.not_eq_true] at hcst
        simp [hcst, hIH]
        try omega
    · have hr : resolveIndex i index (c :: rest) = index := by
        simp [resolveIndex, h]
      rw [hr]
      have : index = i := by omega
      subst this
      simp

/-- Disposing the child at `p` and re-inserting at `p` is an in-place
replacement. -/
theorem eraseIdx_insertIdx_eq_set (a : Child) :
    ∀ (l : List Child) (p : Nat), p < l.length → (l.eraseIdx p).insertIdx p a = l.set p a := by
  intro l
  induction l with
  | nil => intro p hp; simp at hp
  | cons x xs ih =>
    intro p hp
    cases p with
    | zero => simp [List.eraseIdx, List.insertIdx]
    | succ q =>
      simp only [List.eraseIdx, List.insertIdx, List.set]
      have : (xs.eraseIdx q).insertIdx q a = xs.set q a := ih q (by simpa using hp)
      simpa [List.insertIdx] using this

/-- C1 (amended): for a `'set'` change event at index `index`, let `p` be
the position computed by the stdin-skip loop.  Whenever the child at `p`
does not bear the stdin class, `p` is the position of the `index`-th
child without the stdin class (exactly `index` such children precede it),
`_setOutput` replaces the child at `p` in place with the freshly rendered
output widget, every other position is untouched, and in particular every
child bearing the stdin class keeps its position and value. -/
theorem setOutput_skips_stdin (cs : List Child) (index uid p : Nat) (c : Child)
    (hp : p = resolveIndex 0 index cs)
    (hc : cs[p]? = some c)
    (hns : c.hasStdinClass = false) :
    (cs.take p).countP (fun d => !d.hasStdinClass) = index ∧
    setOutputChildren cs index uid = cs.set p (mkOutputChild uid) ∧
    (∀ j : Nat, j ≠ p → (setOutputChildren cs index uid)[j]? = cs[j]?) ∧
    (∀ (j : Nat) (d : Child), cs[j]? = some d → d.hasStdinClass = true →
      (setOutputChildren cs index uid)[j]? = some d) := by
  have hlt : p < cs.length := by
    by_contra hge
    rw [List.getElem?_eq_none (by omega)] at hc
    exact Option.noConfusion hc
  have hcount : (cs.take p).countP (fun d => !d.hasStdinClass) = index := by
    have h0 := resolveIndex_countP cs 0 index (Nat.zero_le _) (by omega)
    rw [← hp] at h0
    simpa using h0
  have hset : setOutputChildren cs index uid = cs.set p (mkOutputChild uid) := by
    rw [setOutputChildren, insertWidgetL, ← hp]
    have hlen : (cs.eraseIdx p).length = cs.length - 1 := by
      rw [List.length_eraseIdx]
      simp [hlt]
    rw [hlen]
    have hmin : min p (cs.length - 1) = p := by omega
    rw [hmin]
    exact eraseIdx_insertIdx_eq_set (mkOutputChild uid) cs p hlt
  refine ⟨hcount, hset, ?_, ?_⟩
  · intro j hj
    rw [hset]
    exact List.getElem?_set_ne (by omega)
  · intro j d hd hstdin
    have hjne : j ≠ p := by
      intro hEq
      subst hEq
      rw [hd] at hc
      have hdc : d = c := Option.some.inj hc
      rw [hdc, hns] at hstdin
      exact Bool.noConfusion hstdin
    rw [hset, List.getElem?_set_ne (by omega)]
    exact hd

/-- Witness for `setOutput_skips_stdin` on a concrete layout with one
stdin child to skip: children `[stdin, output, output]`, set at model
index 1 resolves to layout position 2. -/
theorem setOutput_skips_stdin_witness :
    (([mkStdinChild 9, mkOutputChild 1, mkOutputChild 2] : List Child).take 2).countP
        (fun d => !d.hasStdinClass) = 1 ∧
    setOutputChildren [mkStdinChild 9, mkOutputChild 1, mkOutputChild 2] 1 7 =
      ([mkStdinChild 9, mkOutputChild 1, mkOutputChild 2] : List Child).set 2 (mkOutputChild 7) ∧
    (∀ j : Nat, j ≠ 2 →
      (setOutputChildren [mkStdinChild 9, mkOutputChild 1, mkOutputChild 2] 1 7)[j]? =
        ([mkStdinChild 9, mkOutputChild 1, mkOutputChild 2] : List Child)[j]?) ∧
    (∀ (j : Nat) (d : Child),
      ([mkStdinChild 9, mkOutputChild 1, mkOutputChild 2] : List Child)[j]? = some d →
      d.hasStdinClass = true →
      (setOutputChildren [mkStdinChild 9, mkOutputChild 1, mkOutputChild 2] 1 7)[j]? = some d) :=
  setOutput_skips_stdin [mkStdinChild 9, mkOutputChild 1, mkOutputChild 2] 1 7 2
    (mkOutputChild 2) (by decide) (by decide) (by decide)

/-- C1 counterexample: with children `[output, stdin, output]` and a
`'set'` event at index 1, the skip loop resolves to position 1, which is
the stdin child; `_setOutput` disposes that stdin widget, so the updated
child list holds no stdin child any more. -/
theorem setOutput_disposes_stdin_cex :
    resolveIndex 0 1 [mkOutputChild 0, mkStdinChild 9, mkOutputChild 1] = 1 ∧
    (mkStdinChild 9).hasStdinClass = true ∧
    setOutputChildren [mkOutputChild 0, mkStdinChild 9, mkOutputChild 1] 1 7 =
      [mkOutputChild 0, mkOutputChild 7, mkOutputChild 1] ∧
    (setOutputChildren [mkOutputChild 0, mkStdinChild 9, mkOutputChild 1] 1 7).countP
      Child.hasStdinClass = 0 ∧
    ([mkOutputChild 0, mkStdinChild 9, mkOutputChild 1] : List Child).countP
      Child.hasStdinClass = 1 := by
  decide

/-! ## `clear`, `execute`, `_onIOPub`, and the `'add'` event -/

/-- C2 (code bug): the disposal loop of `clear` re-reads
`this.widgets.length` while each `dispose()` shrinks the child list, so
on an area with two children the `'remove'` change event (and `clear()`
itself) leaves one child behind instead of emptying the list; `clear()`
on an already-empty area is a no-op. -/
theorem clear_remove_leaves_children :
    onModelChanged [mkOutputChild 0, mkOutputChild 1] ChangedArgs.remove = [mkOutputChild 1] ∧
    clearChildren [mkOutputChild 0, mkOutputChild 1] = [mkOutputChild 1] ∧
    clearChildren [mkStdinChild 0, mkStdinChild 1] = [mkStdinChild 1] ∧
    clearChildren ([] : List Child) = [] := by
  decide

/-- C3 (code bug): `execute` does call `model.clear()` and its `onReply`
handler resolves the promise with the very reply message, but the
child-widget clearing goes through the broken `clear` loop twice (once
via the model's `'remove'` event, once directly), so an area with four
stdin children still holds one stdin child when the request is issued. -/
theorem execute_leaves_stdin_child :
    (executeSetup true [mkStdinChild 0, mkStdinChild 1, mkStdinChild 2, mkStdinChild 3]).children =
      [mkStdinChild 3] ∧
    (executeSetup true [mkStdinChild 0, mkStdinChild 1, mkStdinChild 2,
      mkStdinChild 3]).modelCleared = true ∧
    (executeSetup true [mkStdinChild 0, mkStdinChild 1, mkStdinChild 2,
      mkStdinChild 3]).resolveOnReply 42 = 42 := by
  refine ⟨by decide, rfl, rfl⟩

/-- C4: `_onIOPub` adds the message content to the model with
`output_type` set to the message type for the four output-bearing
message types, calls `model.clear` with the message's `wait` flag for
`'clear_output'`, and leaves the model untouched for every other message
type. -/
theorem onIOPub_spec (msg : IOPubMessage) :
    (msg.msg_type = "execute_result" ∨ msg.msg_type = "display_data" ∨
        msg.msg_type = "stream" ∨ msg.msg_type = "error" →
      onIOPub msg = [ModelOp.add { output_type := msg.msg_type, data := msg.content_data }]) ∧
    (msg.msg_type = "clear_output" → onIOPub msg = [ModelOp.clear msg.wait]) ∧
    (msg.msg_type ≠ "execute_result" → msg.msg_type ≠ "display_data" →
      msg.msg_type ≠ "stream" → msg.msg_type ≠ "error" → msg.msg_type ≠ "clear_output" →
      onIOPub msg = []) := by
  refine ⟨?_, ?_, ?_⟩
  · intro h
    rcases h with h | h | h | h <;> simp [onIOPub, h]
  · intro h
    simp [onIOPub, h]
  · intro h1 h2 h3 h4 h5
    unfold onIOPub
    split <;> simp_all

/-- Witness for `onIOPub_spec` at a `'stream'` message and at an
unrelated `'status'` message. -/
theorem onIOPub_spec_witness :
    onIOPub { msg_type := "stream", content_data := 3, wait := false } =
      [ModelOp.add { output_type := "stream", data := 3 }] ∧
    onIOPub { msg_type := "status", content_data := 3, wait := false } = [] :=
  ⟨(onIOPub_spec { msg_type := "stream", content_data := 3, wait := false }).1
      (by exact Or.inr (Or.inr (Or.inl rfl))),
    (onIOPub_spec { msg_type := "status", content_data := 3, wait := false }).2.2
      (by decide) (by decide) (by decide) (by decide) (by decide)⟩

/-- C5: an `'add'` change event appends the freshly rendered output at
the end of the child list — at index `this.widgets.length` — whatever
index the event carries. -/
theorem add_appends_at_end (cs : List Child) (newIndex uid : Nat) :
    onModelChanged cs (ChangedArgs.add newIndex uid) = cs ++ [mkOutputChild uid] := by
  simp [onModelChanged, insertWidgetL, List.insertIdx_length_self]

/-! ## CSS class membership -/

/-- Membership in `addClass`. -/
theorem mem_addClassL (x c : String) (cls : List String) :
    x ∈ addClassL cls c ↔ (x ∈ cls ∨ x = c) := by
  unfold addClassL
  by_cases h : c ∈ cls
  · rw [if_pos h]
    constructor
    · exact Or.inl
    · rintro (hx | rfl)
      · exact hx
      · exact h
  · rw [if_neg h]
    simp [List.mem_append]

/-- Membership in `removeClass`. -/
theorem mem_removeClassL (x c : String) (cls : List String) :
    x ∈ removeClassL cls c ↔ (x ∈ cls ∧ x ≠ c) := by
  unfold removeClassL
  simp [List.mem_filter]

/-- `toggleClass` does not touch other class names. -/
theorem mem_toggleClassL_ne (x c : String) (cls : List String) (b : Bool) (hx : x ≠ c) :
    x ∈ toggleClassL cls c b ↔ x ∈ cls := by
  cases b <;> simp [toggleClassL, mem_addClassL, mem_removeClassL, hx]

/-- After `toggleClass(c, b)`, the class `c` is present iff `b`. -/
theorem mem_toggleClassL_self (c : String) (cls : List String) (b : Bool) :
    c ∈ toggleClassL cls c b ↔ b = true := by
  cases b <;> simp [toggleClassL, mem_addClassL, mem_removeClassL]

/-! ## `collapsed` / `fixedHeight`, `createOutput`, drag, stdin, `mirror` -/

/-- C8: setting `collapsed` or `fixedHeight` to the current value returns
without scheduling an update; setting either to a new value stores the
flag, schedules an update, and changes nothing else, and the following
`onUpdateRequest` toggles exactly the corresponding CSS class — provided
the other flag's class is in sync with its flag, every class other than
the toggled one keeps its membership. -/
theorem collapsed_fixedHeight_spec (s : OutputAreaW) (v u : Bool)
    (hv : v ≠ s.collapsed) (hu : u ≠ s.fixedHeight)
    (hsyncF : FIXED_HEIGHT_CLASS ∈ s.classes ↔ s.fixedHeight = true)
    (hsyncC : COLLAPSED_CLASS ∈ s.classes ↔ s.collapsed = true) :
    s.setCollapsed s.collapsed = s ∧
    s.setFixedHeight s.fixedHeight = s ∧
    (s.setCollapsed v).collapsed = v ∧
    (s.setCollapsed v).fixedHeight = s.fixedHeight ∧
    (s.setCollapsed v).children = s.children ∧
    (s.setCollapsed v).classes = s.classes ∧
    (s.setCollapsed v).updateRequested = true ∧
    (COLLAPSED_CLASS ∈ ((s.setCollapsed v).onUpdateRequest).classes ↔ v = true) ∧
    (∀ c : String, c ≠ COLLAPSED_CLASS →
      (c ∈ ((s.setCollapsed v).onUpdateRequest).classes ↔ c ∈ s.classes)) ∧
    (s.setFixedHeight u).fixedHeight = u ∧
    (s.setFixedHeight u).collapsed = s.collapsed ∧
    (s.setFixedHeight u).children = s.children ∧
    (s.setFixedHeight u).classes = s.classes ∧
    (s.setFixedHeight u).updateRequested = true ∧
    (FIXED_HEIGHT_CLASS ∈ ((s.setFixedHeight u).onUpdateRequest).classes ↔ u = true) ∧
    (∀ c : String, c ≠ FIXED_HEIGHT_CLASS →
      (c ∈ ((s.setFixedHeight u).onUpdateRequest).classes ↔ c ∈ s.classes)) := by
  have hvne : ¬ (s.collapsed = v) := fun h => hv h.symm
  have hune : ¬ (s.fixedHeight = u) := fun h => hu h.symm
  have hCdef : s.setCollapsed v = { s with collapsed := v, updateRequested := true } := by
    rw [OutputAreaW.setCollapsed, if_neg hvne]
  have hFdef : s.setFixedHeight u = { s with fixedHeight := u, updateRequested := true } := by
    rw [OutputAreaW.setFixedHeight, if_neg hune]
  have hCF : COLLAPSED_CLASS ≠ FIXED_HEIGHT_CLASS := by decide
  refine ⟨by simp [OutputAreaW.setCollapsed], by simp [OutputAreaW.setFixedHeight],
    by simp [hCdef], by simp [hCdef], by simp [hCdef], by simp [hCdef], by simp [hCdef],
    ?_, ?_, by simp [hFdef], by simp [hFdef], by simp [hFdef], by simp [hFdef],
    by simp [hFdef], ?_, ?_⟩
  · rw [hCdef]
    simp only [OutputAreaW.onUpdateRequest]
    rw [mem_toggleClassL_ne _ _ _ _ hCF, mem_toggleClassL_self]
  · intro c hc
    rw [hCdef]
    simp only [OutputAreaW.onUpdateRequest]
    by_cases hcf : c = FIXED_HEIGHT_CLASS
    · subst hcf
      rw [mem_toggleClassL_self]
      exact hsyncF.symm
    · rw [mem_toggleClassL_ne _ _ _ _ hcf, mem_toggleClassL_ne _ _ _ _ hc]
  · rw [hFdef]
    simp only [OutputAreaW.onUpdateRequest]
    rw [mem_toggleClassL_self]
  · intro c hc
    rw [hFdef]
    simp only [OutputAreaW.onUpdateRequest]
    rw [mem_toggleClassL_ne _ _ _ _ hc]
    by_cases hcc : c = COLLAPSED_CLASS
    · subst hcc
      rw [mem_toggleClassL_self]
      exact hsyncC.symm
    · rw [mem_toggleClassL_ne _ _ _ _ hcc]

/-- Witness for `collapsed_fixedHeight_spec` on a freshly constructed
output area collapsed to `true`. -/
theorem collapsed_fixedHeight_spec_witness :
    COLLAPSED_CLASS ∈ (((OutputAreaW.construct 0 1 2).setCollapsed true).onUpdateRequest).classes ↔
      true = true :=
  (collapsed_fixedHeight_spec (OutputAreaW.construct 0 1 2) true true (by decide) (by decide)
    (by decide) (by decide)).2.2.2.2.2.2.2.1

/-- C6: when the rendermime yields no widget, `createOutput` warns and
returns a fresh empty widget, and that is its only warning branch; when a
widget is produced there is no warning and the widget carries the CSS
class matching the model's `output_type` (split by stream name for
`'stream'`). -/
theorem createOutput_spec (model : OutputModelView) (g : String) :
    createOutput none model g =
      { widget := { classes := [] }, gutterText := g, warned := true } ∧
    (∀ w : RenderedWidget, (createOutput (some w) model g).warned = false) ∧
    (∀ w : RenderedWidget, model.output_type = "execute_result" →
      (createOutput (some w) model g).widget = w.addClass EXECUTE_CLASS) ∧
    (∀ w : RenderedWidget, model.output_type = "display_data" →
      (createOutput (some w) model g).widget = w.addClass DISPLAY_CLASS) ∧
    (∀ w : RenderedWidget, model.output_type = "stream" → model.name = "stdout" →
      (createOutput (some w) model g).widget = w.addClass STDOUT_CLASS) ∧
    (∀ w : RenderedWidget, model.output_type = "stream" → model.name ≠ "stdout" →
      (createOutput (some w) model g).widget = w.addClass STDERR_CLASS) ∧
    (∀ w : RenderedWidget, model.output_type = "error" →
      (createOutput (some w) model g).widget = w.addClass ERROR_CLASS) ∧
    (∀ r : Option RenderedWidget, (createOutput r model g).warned = true ↔ r = none) := by
  refine ⟨rfl, ?_, ?_, ?_, ?_, ?_, ?_, ?_⟩
  · intro w
    simp only [createOutput]
    split <;> rfl
  · intro w h
    simp [createOutput, h]
  · intro w h
    simp [createOutput, h]
  · intro w h hn
    simp [createOutput, h, hn]
  · intro w h hn
    simp [createOutput, h, hn]
  · intro w h
    simp [createOutput, h]
  · intro r
    cases r with
    | none => simp [createOutput]
    | some w =>
      simp only [createOutput]
      split <;> simp

/-- Witness for `createOutput_spec` on a stdout stream output. -/
theorem createOutput_spec_witness :
    (createOutput (some { classes := ["r"] })
        { output_type := "stream", name := "stdout", execution_count := none } "").widget =
      RenderedWidget.addClass { classes := ["r"] } STDOUT_CLASS :=
  (createOutput_spec { output_type := "stream", name := "stdout", execution_count := none }
    "").2.2.2.2.1 { classes := ["r"] } rfl rfl

/-- C7: after a left-button gutter press at `(px, py)` with no drag in
progress, a mousemove to `(x, y)` starts a drag exactly when the pointer
moved at least `DRAG_THRESHOLD` (5) pixels along the horizontal or the
vertical axis; below the threshold the state is untouched, at or above
it exactly one new drag is constructed, and any mousemove while a drag
is active changes nothing (no second drag). -/
theorem gutter_drag_threshold (s : GutterState) (button : Nat) (px py x y : Int)
    (hbtn : button = 0) (hidle : s.dragActive = false) :
    ((Gutter.evtMousemove (Gutter.evtMousedown s button px py) x y).dragActive = true ↔
      (DRAG_THRESHOLD ≤ (x - px).natAbs ∨ DRAG_THRESHOLD ≤ (y - py).natAbs)) ∧
    ((x - px).natAbs < DRAG_THRESHOLD ∧ (y - py).natAbs < DRAG_THRESHOLD →
      Gutter.evtMousemove (Gutter.evtMousedown s button px py) x y =
        Gutter.evtMousedown s button px py) ∧
    ((DRAG_THRESHOLD ≤ (x - px).natAbs ∨ DRAG_THRESHOLD ≤ (y - py).natAbs) →
      (Gutter.evtMousemove (Gutter.evtMousedown s button px py) x y).dragsStarted =
        s.dragsStarted + 1) ∧
    (∀ (t : GutterState) (a b : Int), t.dragActive = true →
      Gutter.evtMousemove t a b = t) := by
  subst hbtn
  have hs1 : Gutter.evtMousedown s 0 px py =
      { s with dragData := some { pressX := px, pressY := py } } := by
    simp [Gutter.evtMousedown]
  have hiff : (DRAG_THRESHOLD ≤ (x - px).natAbs ∨ DRAG_THRESHOLD ≤ (y - py).natAbs) ↔
      ¬ ((x - px).natAbs < DRAG_THRESHOLD ∧ (y - py).natAbs < DRAG_THRESHOLD) := by
    unfold DRAG_THRESHOLD
    omega
  refine ⟨?_, ?_, ?_, ?_⟩
  · rw [hiff, hs1]
    by_cases hthr : (x - px).natAbs < DRAG_THRESHOLD ∧ (y - py).natAbs < DRAG_THRESHOLD
    · simp [Gutter.evtMousemove, hidle, hthr]
    · simp [Gutter.evtMousemove, Gutter.startDrag, hidle, hthr]
  · intro hthr
    rw [hs1]
    simp [Gutter.evtMousemove, hidle, hthr]
  · intro hge
    have hthr := hiff.mp hge
    rw [hs1]
    simp [Gutter.evtMousemove, Gutter.startDrag, hidle, hthr]
  · intro t a b ht
    simp [Gutter.evtMousemove, ht]

/-- Witness for `gutter_drag_threshold`: a press at the origin and a
mousemove 10 pixels to the right starts exactly one drag. -/
theorem gutter_drag_threshold_witness :
    (Gutter.evtMousemove
        (Gutter.evtMousedown { dragData := none, dragActive := false, dragsStarted := 0 } 0 0 0)
        10 0).dragsStarted =
      ({ dragData := none, dragActive := false, dragsStarted := 0 } : GutterState).dragsStarted
        + 1 :=
  (gutter_drag_threshold { dragData := none, dragActive := false, dragsStarted := 0 } 0 0 0 10 0
    rfl rfl).2.2.1 (by decide)

/-- C9: on Enter the stdin widget sends the typed value as the kernel
input reply and replaces the input element with a rendered span; for a
password input the rendered text is `'·'` repeated once per character,
so two values of equal length render identically and the rendered text
reveals only the value's length. -/
theorem stdin_enter_password_masks (password : Bool) (v v1 v2 : String)
    (hlen : v1.length = v2.length) :
    (Stdin.handleKeydown password v 13).sentReply = some v ∧
    (Stdin.handleKeydown password v 13).inputReplaced = true ∧
    (Stdin.handleKeydown true v 13).renderedText = some (repeatChar '·' v.length) ∧
    (Stdin.handleKeydown false v 13).renderedText = some v ∧
    (Stdin.handleKeydown true v1 13).renderedText =
      (Stdin.handleKeydown true v2 13).renderedText ∧
    (∀ sp : String, (Stdin.handleKeydown true v 13).renderedText = some sp →
      sp.length = v.length) := by
  refine ⟨rfl, rfl, rfl, rfl, ?_, ?_⟩
  · simp [Stdin.handleKeydown, hlen]
  · intro sp hsp
    have hv9 : (Stdin.handleKeydown true v 13).renderedText = some (repeatChar '·' v.length) := rfl
    rw [hv9] at hsp
    have hspv := Option.some.inj hsp
    rw [← hspv]
    simp [repeatChar, String.length_mk]

/-- Witness for `stdin_enter_password_masks`: the password values "ab"
and "cd" render the same masked text. -/
theorem stdin_enter_password_masks_witness :
    (Stdin.handleKeydown true "ab" 13).renderedText =
      (Stdin.handleKeydown true "cd" 13).renderedText :=
  (stdin_enter_password_masks true "ab" "ab" "cd" rfl).2.2.2.2.1

/-- C10: `mirror()` returns a fresh output area sharing the receiver's
model, rendermime and content factory, titled "Mirrored Output" and
closable, bearing the mirrored-output CSS class (next to the base output
area class), with no children and cleared flags; the receiver itself is
unchanged. -/
theorem mirror_spec (s : OutputAreaW) :
    s.mirror.1 = s ∧
    s.mirror.2.modelId = s.modelId ∧
    s.mirror.2.rendermimeId = s.rendermimeId ∧
    s.mirror.2.contentFactoryId = s.contentFactoryId ∧
    s.mirror.2.titleLabel = "Mirrored Output" ∧
    s.mirror.2.titleClosable = true ∧
    MIRRORED_OUTPUT_AREA_CLASS ∈ s.mirror.2.classes ∧
    OUTPUT_AREA_CLASS ∈ s.mirror.2.classes ∧
    s.mirror.2.children = ([] : List Child) ∧
    s.mirror.2.collapsed = false ∧
    s.mirror.2.fixedHeight = false ∧
    s.mirror.2.updateRequested = false := by
  refine ⟨rfl, rfl, rfl, rfl, rfl, rfl, ?_, ?_, rfl, rfl, rfl, rfl⟩
  · simp [OutputAreaW.mirror, OutputAreaW.construct, mem_addClassL]
  · simp [OutputAreaW.mirror, OutputAreaW.construct, mem_addClassL]

end OutputAreaWidget
